import Mathlib

/-!
Shallow embedding of `machina/models/fields.py` (django-machina custom model
fields): the `MarkupTextField` / `MarkupTextDescriptor` / `MarkupText` trio
and the `ExtendedImageField`, together with the module-level loading of the
configured render function.  Python exceptions are modelled with `Except`,
attribute dictionaries (`instance.__dict__`) with association lists, and
Python truthiness of optional numeric settings explicitly.
-/

namespace Machina

/-- Python exceptions that the embedded code can raise. -/
inductive ValidationKind where
  | sizeError
  | widthError
  | heightError
  deriving DecidableEq, Repr

/-- Python exceptions relevant to `machina/models/fields.py`. -/
inductive PyErr where
  | attributeError
  | keyError
  | importError
  | valueError
  | validationError (kind : ValidationKind)
  deriving DecidableEq, Repr

/-- Python values that can live in a model instance dictionary in this module:
`None`, ordinary text, and text already marked safe (`SafeText`). -/
inductive PyVal where
  | pyNone
  | pyStr (s : String)
  | pySafeStr (s : String)
  deriving DecidableEq, Repr

/-- Lookup in an association list modelling a Python `dict` keyed by strings. -/
def lookupA (d : List (String × PyVal)) (k : String) : Option PyVal :=
  match d with
  | [] => none
  | (k', v) :: rest => if k' = k then some v else lookupA rest k

/-- Key assignment in an association list modelling a Python `dict`:
an existing binding is replaced in place, a new one is appended. -/
def insertA (d : List (String × PyVal)) (k : String) (v : PyVal) :
    List (String × PyVal) :=
  match d with
  | [] => [(k, v)]
  | (k', v') :: rest =>
      if k' = k then (k, v) :: rest else (k', v') :: insertA rest k v

/-- `_rendered_field_name`: the name of the hidden rendered column,
`'_{}_rendered'.format(name)`. -/
def rendered_field_name_of (name : String) : String :=
  "_" ++ name ++ "_rendered"

/-- The Python classes whose `isinstance(_, SafeData)` status matters here. -/
inductive PyClass where
  | safeData
  | markupTextCls
  | safeTextCls
  | strCls
  | noneType
  deriving DecidableEq, Repr

/-- Direct base classes, read off the class statements: `MarkupText` is
declared as `class MarkupText(SafeData)` and Django's `SafeText` derives
from both `str` and `SafeData`. -/
def class_bases : PyClass → List PyClass
  | .markupTextCls => [.safeData]
  | .safeTextCls => [.strCls, .safeData]
  | _ => []

/-- `isinstance(x, SafeData)` for an object of the given class. -/
def isinstance_SafeData (c : PyClass) : Bool :=
  c = PyClass.safeData || (class_bases c).contains PyClass.safeData

/-- The class of each embedded Python value. -/
def PyVal.cls : PyVal → PyClass
  | .pyNone => .noneType
  | .pyStr _ => .strCls
  | .pySafeStr _ => .safeTextCls

/-- Django's `mark_safe`: a `SafeData` value passes through unchanged, text is
wrapped as `SafeText`, and any other object is stringified and wrapped
(`str(None)` is the text `None`). -/
def markSafe : PyVal → PyVal
  | .pySafeStr s => .pySafeStr s
  | .pyStr s => .pySafeStr s
  | .pyNone => .pySafeStr "None"

/-- A model instance, reduced to its attribute dictionary
`instance.__dict__`.  The raw markup column and the hidden rendered column
are both plain attributes stored in this dictionary. -/
structure MInstance where
  dict : List (String × PyVal)
  deriving DecidableEq, Repr

/-- The `MarkupText` wrapper object: it stores a reference to the instance
along with the two field names, and reads the live values through them. -/
structure MarkupText where
  inst : MInstance
  field_name : String
  rendered_field_name : String
  deriving DecidableEq, Repr

/-- `MarkupText._get_raw`: `self.instance.__dict__[self.field_name]`;
a missing key raises `KeyError`. -/
def MarkupText.raw (m : MarkupText) : Except PyErr PyVal :=
  match lookupA m.inst.dict m.field_name with
  | some v => .ok v
  | none => .error .keyError

/-- `MarkupText._get_rendered`:
`mark_safe(getattr(self.instance, self.rendered_field_name))`; a missing
plain attribute raises `AttributeError`. -/
def MarkupText.rendered (m : MarkupText) : Except PyErr PyVal :=
  match lookupA m.inst.dict m.rendered_field_name with
  | some v => .ok (markSafe v)
  | none => .error .attributeError

/-- `MarkupText.__unicode__`: `return self.raw`. -/
def MarkupText.unicode (m : MarkupText) : Except PyErr PyVal :=
  m.raw

/-- A value being assigned to (or prepared from) the markup attribute:
either a `MarkupText` wrapper or any other Python value. -/
inductive AssignVal where
  | wrapper (m : MarkupText)
  | plain (v : PyVal)
  deriving DecidableEq, Repr

/-- `MarkupTextDescriptor.__get__`: with no instance an `AttributeError` is
raised; otherwise the raw value is read from `instance.__dict__` (a missing
key raises `KeyError`), `None` is returned for a `None` raw value, and a
live `MarkupText` wrapper is returned otherwise. -/
def MarkupTextDescriptor.descr_get (field_name : String)
    (obj : Option MInstance) : Except PyErr (Option MarkupText) :=
  match obj with
  | none => .error .attributeError
  | some inst =>
    match lookupA inst.dict field_name with
    | none => .error .keyError
    | some .pyNone => .ok none
    | some _ => .ok (some ⟨inst, field_name, rendered_field_name_of field_name⟩)

/-- `MarkupTextDescriptor.__set__`: a `MarkupText` value updates both the raw
dictionary slot (with `value.raw`) and the rendered attribute (with
`value.rendered`); any other value updates only the raw slot. -/
def MarkupTextDescriptor.descr_set (field_name : String) (inst : MInstance)
    (value : AssignVal) : Except PyErr MInstance :=
  match value with
  | .wrapper m =>
    match m.raw with
    | .error e => .error e
    | .ok rawv =>
      let inst1 : MInstance := ⟨insertA inst.dict field_name rawv⟩
      match m.rendered with
      | .error e => .error e
      | .ok rndv =>
          .ok ⟨insertA inst1.dict (rendered_field_name_of field_name) rndv⟩
  | .plain v => .ok ⟨insertA inst.dict field_name v⟩

/-- The `MarkupTextField` state set up by `__init__`:
`add_rendered_field = not kwargs.pop('no_rendered_field', False)`. -/
structure MarkupTextField where
  add_rendered_field : Bool
  deriving DecidableEq, Repr

/-- `MarkupTextField.__init__` with the optional `no_rendered_field` kwarg
(absent means `false`). -/
def MarkupTextField.init (no_rendered_field : Bool) : MarkupTextField :=
  ⟨!no_rendered_field⟩

/-- A model class, reduced to the state touched by `contribute_to_class`:
its abstractness, its contributed columns in order, the fields whose
`render_data` is connected to the `pre_save` signal, and the attribute names
bound to a `MarkupTextDescriptor`. -/
structure ModelCls where
  abstract : Bool
  columns : List String
  pre_save_receivers : List String
  descriptor_attrs : List String
  deriving DecidableEq, Repr

/-- `MarkupTextField.contribute_to_class`: add the hidden rendered
`TextField` (when `add_rendered_field` holds and the class is not abstract),
connect `render_data` to `pre_save`, add the raw text column itself, and
bind the descriptor under the field name. -/
def MarkupTextField.contribute_to_class (f : MarkupTextField) (cls : ModelCls)
    (name : String) : ModelCls :=
  let cls1 :=
    if f.add_rendered_field && !cls.abstract then
      { cls with columns := cls.columns ++ [rendered_field_name_of name] }
    else cls
  let cls2 :=
    { cls1 with pre_save_receivers := cls1.pre_save_receivers ++ [name] }
  let cls3 := { cls2 with columns := cls2.columns ++ [name] }
  { cls3 with descriptor_attrs := cls3.descriptor_attrs ++ [name] }

/-- `MarkupTextField.get_db_prep_value`: `try: return value.raw except
AttributeError: return value`.  A `MarkupText` wrapper yields its raw
component (a `KeyError` while reading it is not an `AttributeError` and
propagates); a plain value has no `raw` attribute, so the `AttributeError`
is caught and the value is returned unchanged. -/
def MarkupTextField.get_db_prep_value (value : AssignVal) :
    Except PyErr AssignVal :=
  match value with
  | .wrapper m =>
    match m.raw with
    | .ok r => .ok (.plain r)
    | .error .attributeError => .ok (.wrapper m)
    | .error e => .error e
  | .plain v => .ok (.plain v)

/-- `MarkupTextField.render_data`, the `pre_save` receiver: read the field
through the descriptor, render the raw value through the configured render
function when the value exposes `raw` (i.e. is a `MarkupText`), use `None`
otherwise, and store the result in the hidden rendered attribute. -/
def MarkupTextField.render_data (render_func : PyVal → PyVal)
    (attname : String) (inst : MInstance) : Except PyErr MInstance :=
  match MarkupTextDescriptor.descr_get attname (some inst) with
  | .error e => .error e
  | .ok value =>
    match value with
    | some m =>
      match m.raw with
      | .error e => .error e
      | .ok rawv =>
          .ok ⟨insertA inst.dict (rendered_field_name_of attname)
                (render_func rawv)⟩
    | none =>
        .ok ⟨insertA inst.dict (rendered_field_name_of attname) PyVal.pyNone⟩

/-- Python truthiness of an optional numeric kwarg: `None` and `0` are falsy,
every other number is truthy. -/
def truthyOpt : Option Nat → Bool
  | none => false
  | some n => n != 0

/-- The value behind a truthy optional kwarg. -/
def optVal (o : Option Nat) : Nat :=
  o.getD 0

/-- The `ExtendedImageField` state set up by `__init__`: optional resize box,
optional dimension bounds, and `max_upload_size` (default `0`). -/
structure ExtendedImageField where
  width : Option Nat
  height : Option Nat
  min_width : Option Nat
  max_width : Option Nat
  min_height : Option Nat
  max_height : Option Nat
  max_upload_size : Nat
  deriving DecidableEq, Repr

/-- The cleaned upload as seen by `ExtendedImageField.clean`: the byte size
of `data.file` when that object has a `size` attribute, and the pixel
dimensions reported by `get_image_dimensions(data)`. -/
structure UploadedImage where
  size : Option Nat
  width : Nat
  height : Nat
  deriving DecidableEq, Repr

/-- The file-size guard of `clean`:
`self.max_upload_size and hasattr(image, 'size') and image.size > self.max_upload_size`. -/
def sizeCheckFails (f : ExtendedImageField) (data : UploadedImage) : Bool :=
  f.max_upload_size != 0 &&
    match data.size with
    | some sz => sz > f.max_upload_size
    | none => false

/-- The width guard of `clean`:
`self.min_width and self.max_width and not self.min_width <= image_width <= self.max_width`. -/
def widthCheckFails (f : ExtendedImageField) (data : UploadedImage) : Bool :=
  truthyOpt f.min_width && truthyOpt f.max_width &&
    !(optVal f.min_width ≤ data.width && data.width ≤ optVal f.max_width)

/-- The height guard of `clean`:
`self.min_height and self.max_height and not self.min_height <= image_height <= self.max_height`. -/
def heightCheckFails (f : ExtendedImageField) (data : UploadedImage) : Bool :=
  truthyOpt f.min_height && truthyOpt f.max_height &&
    !(optVal f.min_height ≤ data.height && data.height ≤ optVal f.max_height)

/-- `ExtendedImageField.clean` after the superclass call: the file-size check
runs first, then the width check, then the height check, and the cleaned
data is returned unchanged when no check raises a `ValidationError`. -/
def ExtendedImageField.clean (f : ExtendedImageField) (data : UploadedImage) :
    Except PyErr UploadedImage :=
  if sizeCheckFails f data then
    .error (.validationError .sizeError)
  else if widthCheckFails f data then
    .error (.validationError .widthError)
  else if heightCheckFails f data then
    .error (.validationError .heightError)
  else .ok data

/-- An in-memory PIL image, reduced to its pixel dimensions. -/
structure PILImage where
  width : Nat
  height : Nat
  deriving DecidableEq, Repr

/-- PIL's `Image.thumbnail(size)` as documented by `resize_image` ("resizes
the given image to fit inside a box of the given size"): shrink the width to
the box width (rescaling the height proportionally, floor division, at least
one pixel) when it exceeds it, then likewise for the height; an image
already inside the box is untouched. -/
def PILImage.thumbnail (img : PILImage) (size : Nat × Nat) : PILImage :=
  let p1 :=
    if img.width > size.1 then
      (size.1, max (img.height * size.1 / img.width) 1)
    else (img.width, img.height)
  if p1.2 > size.2 then ⟨max (p1.1 * size.2 / p1.2) 1, size.2⟩
  else ⟨p1.1, p1.2⟩

/-- Image file formats appearing in the embedding. -/
inductive ImgFormat where
  | png
  | jpeg
  | gif
  deriving DecidableEq, Repr

/-- The bytes of an encoded image, reduced to the format and the decoded
image (`Image.open` recovers the image, `image.save(..., format='PNG')`
produces `png` bytes). -/
structure ImageContent where
  format : ImgFormat
  image : PILImage
  deriving DecidableEq, Repr

/-- An uploaded form file: its name and its content bytes. -/
structure ImageFile where
  name : String
  content : ImageContent
  deriving DecidableEq, Repr

/-- `ExtendedImageField.resize_image`: open the image, `thumbnail` it into
the box, and re-encode it as PNG. -/
def ExtendedImageField.resize_image (data : ImageContent) (size : Nat × Nat) :
    ImageContent :=
  ⟨.png, data.image.thumbnail size⟩

/-- `path.split(p)[-1]`: the component after the last slash. -/
def path_split_last (s : String) : String :=
  String.mk
    (s.toList.foldl (fun acc c => if c = '/' then [] else acc ++ [c]) [])

/-- The index of the last `.` in the list, if any. -/
def lastIdxOfDot : List Char → Option Nat
  | [] => none
  | c :: rest =>
    match lastIdxOfDot rest with
    | some i => some (i + 1)
    | none => if c = '.' then some 0 else none

/-- `path.splitext(b)[0]` for a path without separators: drop the suffix
from the last dot on, unless every character before that dot is itself a dot
(so a pure dot-prefix name such as `.bashrc` is kept whole). -/
def splitext_root (p : String) : String :=
  let cs := p.toList
  match lastIdxOfDot cs with
  | none => p
  | some i =>
      if (cs.take i).any (fun c => c ≠ '.') then String.mk (cs.take i) else p

/-- `ExtendedImageField.save_form_data`: when the form data is truthy and
both `width` and `height` are truthy, replace the file by the resized PNG
under the original base name with a `.png` extension; otherwise hand the
data to the superclass unmodified. -/
def ExtendedImageField.save_form_data (f : ExtendedImageField)
    (data : Option ImageFile) : Option ImageFile :=
  match data with
  | some d =>
    if truthyOpt f.width && truthyOpt f.height then
      let content :=
        ExtendedImageField.resize_image d.content (optVal f.width, optVal f.height)
      let filename := splitext_root (path_split_last d.name) ++ ".png"
      some ⟨filename, content⟩
    else some d
  | none => none

/-- The import machinery visible to `_get_render_function`: which dotted
module paths `__import__` can load, and which attributes each loaded module
exposes. -/
structure ImportEnv where
  importable : String → Bool
  has_attr : String → String → Bool

/-- Split a character list at its last `.`: the characters before it and
after it, or `none` when there is no dot. -/
def rsplit_dot_aux : List Char → Option (List Char × List Char)
  | [] => none
  | c :: rest =>
    match rsplit_dot_aux rest with
    | some (pre, post) => some (c :: pre, post)
    | none => if c = '.' then some ([], rest) else none

/-- `dotted_path.rsplit('.', 1)` followed by unpacking into
`module, func`: fails (`ValueError`) when the path has no dot. -/
def rsplit_dot (s : String) : Option (String × String) :=
  match rsplit_dot_aux s.toList with
  | some (pre, post) => some (String.mk pre, String.mk post)
  | none => none

/-- The curried render function, reduced to what identifies it: the module,
the function name and the frozen keyword arguments. -/
structure RenderSpec where
  module : String
  func : String
  kwargs : List (String × String)
  deriving DecidableEq, Repr

/-- `_get_render_function`: split the dotted path, `__import__` the module
(raising `ImportError` on failure), fetch the function attribute (raising
`AttributeError` when missing) and curry it with the keyword arguments. -/
def _get_render_function (env : ImportEnv) (dotted_path : String)
    (kwargs : List (String × String)) : Except PyErr RenderSpec :=
  match rsplit_dot dotted_path with
  | none => .error .valueError
  | some (module, func) =>
    if !env.importable module then .error .importError
    else if !env.has_attr module func then .error .attributeError
    else .ok ⟨module, func, kwargs⟩

/-- The outcome of importing the module `machina.models.fields`. -/
inductive ModuleLoadResult where
  | ok (r : RenderSpec)
  | improperlyConfigured
  | uncaught (e : PyErr)
  deriving DecidableEq, Repr

/-- The module-level `try` block: read `MACHINA_MARKUP_LANGUAGE` (an absent
setting raises `AttributeError`) and build the render function;
`ImportError` and `AttributeError` are both converted into
`ImproperlyConfigured`, so a misconfiguration aborts the import of the
module itself, i.e. at startup. -/
def load_render_func (setting : Option (String × List (String × String)))
    (env : ImportEnv) : ModuleLoadResult :=
  match setting with
  | none => .improperlyConfigured
  | some (dotted_path, kwargs) =>
    match _get_render_function env dotted_path kwargs with
    | .ok r => .ok r
    | .error .importError => .improperlyConfigured
    | .error .attributeError => .improperlyConfigured
    | .error e => .uncaught e

/-! ### Helper lemmas -/

/-- Reading back from a dictionary after an assignment: the assigned key
yields the new value, every other key is untouched. -/
theorem lookupA_insertA (d : List (String × PyVal)) (k k' : String) (v : PyVal) :
    lookupA (insertA d k v) k' = if k = k' then some v else lookupA d k' := by
  induction d with
  | nil =>
    simp [insertA, lookupA]
  | cons hd tl ih =>
    obtain ⟨k0, v0⟩ := hd
    by_cases h0 : k0 = k
    · subst h0
      by_cases h1 : k0 = k'
      · subst h1
        simp [insertA, lookupA]
      · simp [insertA, lookupA, h1]
    · by_cases h1 : k0 = k'
      · subst h1
        have hne : ¬ k = k0 := fun h => h0 h.symm
        simp [insertA, lookupA, h0, hne]
      · simp [insertA, lookupA, h0, h1, ih]

/-- The hidden rendered column name is ten characters longer than the
field name. -/
theorem rendered_field_name_of_length (name : String) :
    (rendered_field_name_of name).length = name.length + 10 := by
  have h1 : "_".length = 1 := rfl
  have h2 : "_rendered".length = 9 := rfl
  simp [rendered_field_name_of, String.length_append, h1, h2]
  omega

/-- The hidden rendered column never collides with the raw column. -/
theorem rendered_field_name_of_ne (name : String) :
    rendered_field_name_of name ≠ name := by
  intro h
  have := congrArg String.length h
  rw [rendered_field_name_of_length] at this
  omega

/-- `a * c / b ≤ a` whenever `c ≤ b` (with `a * 0 / 0 = 0` for `b = 0`). -/
theorem mul_div_shrink (a b c : Nat) (hcb : c ≤ b) : a * c / b ≤ a := by
  rcases Nat.eq_zero_or_pos b with hb | hb
  · subst hb
    simp
  · calc a * c / b ≤ a * b / b := Nat.div_le_div_right (Nat.mul_le_mul_left a hcb)
    _ = a := Nat.mul_div_cancel a hb

/-- A `thumbnail` into a box with positive sides fits inside that box. -/
theorem PILImage.thumbnail_fits (img : PILImage) (w h : Nat)
    (hw : 1 ≤ w) (hh : 1 ≤ h) :
    (img.thumbnail (w, h)).width ≤ w ∧ (img.thumbnail (w, h)).height ≤ h := by
  obtain ⟨x, y⟩ := img
  simp only [PILImage.thumbnail]
  by_cases h1 : x > w
  · simp only [h1, if_true, gt_iff_lt]
    by_cases h2 : max (y * w / x) 1 > h
    · have hdiv : w * h / max (y * w / x) 1 ≤ w :=
        mul_div_shrink w (max (y * w / x) 1) h (Nat.le_of_lt h2)
      simp [h2, Nat.max_le, hdiv, hw]
    · simp [h2, Nat.le_of_not_lt h2]
  · have hx : x ≤ w := Nat.le_of_not_lt h1
    simp only [h1, if_false, gt_iff_lt]
    by_cases h2 : y > h
    · have hdiv : x * h / y ≤ x := mul_div_shrink x y h (Nat.le_of_lt h2)
      simp [h2, Nat.max_le, Nat.le_trans hdiv hx, Nat.le_trans hw (le_refl w), hw, hx]
    · simp [h2, hx, Nat.le_of_not_lt h2]

/-! ### Claim theorems -/

/-- Claim C1: for every model instance carrying a `MarkupTextField`, before
every save (via the `pre_save` receiver `render_data`, which
`contribute_to_class` connects) the cached rendered field
`_<name>_rendered` is set to the configured render function applied to the
current raw value whenever the field's value exposes a `raw` attribute
(i.e. the raw value is not `None`), and to `None` otherwise. -/
theorem render_data_rerenders_before_save (render_func : PyVal → PyVal)
    (name : String) (f : MarkupTextField) (cls : ModelCls) (inst : MInstance)
    (v : PyVal) (hv : lookupA inst.dict name = some v) :
    (f.contribute_to_class cls name).pre_save_receivers =
      cls.pre_save_receivers ++ [name] ∧
    MarkupTextField.render_data render_func name inst =
      .ok ⟨insertA inst.dict (rendered_field_name_of name)
            (if v = PyVal.pyNone then PyVal.pyNone else render_func v)⟩ := by
  constructor
  · by_cases hc : f.add_rendered_field && !cls.abstract <;>
      simp [MarkupTextField.contribute_to_class, hc]
  · cases v with
    | pyNone =>
      simp [MarkupTextField.render_data, MarkupTextDescriptor.descr_get, hv]
    | pyStr s =>
      simp [MarkupTextField.render_data, MarkupTextDescriptor.descr_get, hv,
        MarkupText.raw]
    | pySafeStr s =>
      simp [MarkupTextField.render_data, MarkupTextDescriptor.descr_get, hv,
        MarkupText.raw]

/-- Witness for C1 at a concrete instance, render function and field name,
covering both the markup case and the `None` case. -/
theorem render_data_rerenders_before_save_witness :
    lookupA [("body", PyVal.pyStr "hi"),
             ("_body_rendered", PyVal.pyNone)] "body" = some (PyVal.pyStr "hi") ∧
    MarkupTextField.render_data (fun v => markSafe v) "body"
        ⟨[("body", PyVal.pyStr "hi"), ("_body_rendered", PyVal.pyNone)]⟩ =
      .ok ⟨insertA [("body", PyVal.pyStr "hi"), ("_body_rendered", PyVal.pyNone)]
            (rendered_field_name_of "body")
            (if PyVal.pyStr "hi" = PyVal.pyNone then PyVal.pyNone
             else markSafe (PyVal.pyStr "hi"))⟩ ∧
    MarkupTextField.render_data (fun v => markSafe v) "body"
        ⟨[("body", PyVal.pyNone)]⟩ =
      .ok ⟨insertA [("body", PyVal.pyNone)] (rendered_field_name_of "body")
            (if PyVal.pyNone = PyVal.pyNone then PyVal.pyNone
             else markSafe PyVal.pyNone)⟩ :=
  ⟨rfl,
   (render_data_rerenders_before_save (fun v => markSafe v) "body" ⟨true⟩
      ⟨false, [], [], []⟩
      ⟨[("body", PyVal.pyStr "hi"), ("_body_rendered", PyVal.pyNone)]⟩
      (PyVal.pyStr "hi") rfl).2,
   (render_data_rerenders_before_save (fun v => markSafe v) "body" ⟨true⟩
      ⟨false, [], [], []⟩ ⟨[("body", PyVal.pyNone)]⟩ PyVal.pyNone rfl).2⟩

/-- Claim C2: a `MarkupTextField` (whose default `__init__` leaves
`add_rendered_field` on) contributes two columns to a non-abstract model
class: the rendered-text column named `_<name>_rendered` and the raw text
column under the field's own name. -/
theorem contribute_to_class_two_columns (f : MarkupTextField) (cls : ModelCls)
    (name : String) (hf : f.add_rendered_field = true)
    (hcls : cls.abstract = false) :
    (MarkupTextField.init false).add_rendered_field = true ∧
    rendered_field_name_of name = "_" ++ name ++ "_rendered" ∧
    (f.contribute_to_class cls name).columns =
      cls.columns ++ [rendered_field_name_of name, name] := by
  refine ⟨rfl, rfl, ?_⟩
  simp [MarkupTextField.contribute_to_class, hf, hcls]

/-- Witness for C2: the default field added to a concrete non-abstract
class contributes exactly the two columns. -/
theorem contribute_to_class_two_columns_witness :
    (MarkupTextField.init false).add_rendered_field = true ∧
    rendered_field_name_of "body" = "_" ++ "body" ++ "_rendered" ∧
    (MarkupTextField.contribute_to_class ⟨true⟩ ⟨false, ["id"], [], []⟩
        "body").columns =
      ["id"] ++ [rendered_field_name_of "body", "body"] :=
  contribute_to_class_two_columns ⟨true⟩ ⟨false, ["id"], [], []⟩ "body" rfl rfl

/-- Claim C3: the `MarkupText` wrapper is an instance of `SafeData`, its
`rendered` property returns the stored rendered value wrapped by
`mark_safe`, and its string conversion `__unicode__` returns the raw markup
value. -/
theorem markup_text_exposes_raw_and_rendered (m : MarkupText) (rv : PyVal)
    (h : lookupA m.inst.dict m.rendered_field_name = some rv) :
    isinstance_SafeData PyClass.markupTextCls = true ∧
    m.rendered = .ok (markSafe rv) ∧
    m.unicode = m.raw := by
  refine ⟨rfl, ?_, rfl⟩
  simp [MarkupText.rendered, h]

/-- Witness for C3 at a concrete wrapper and stored rendered string. -/
theorem markup_text_exposes_raw_and_rendered_witness :
    lookupA [("body", PyVal.pyStr "hi"),
             ("_body_rendered", PyVal.pyStr "<p>hi</p>")] "_body_rendered" =
      some (PyVal.pyStr "<p>hi</p>") ∧
    isinstance_SafeData PyClass.markupTextCls = true ∧
    MarkupText.rendered
        ⟨⟨[("body", PyVal.pyStr "hi"),
           ("_body_rendered", PyVal.pyStr "<p>hi</p>")]⟩, "body",
         "_body_rendered"⟩ = .ok (markSafe (PyVal.pyStr "<p>hi</p>")) ∧
    MarkupText.unicode
        ⟨⟨[("body", PyVal.pyStr "hi"),
           ("_body_rendered", PyVal.pyStr "<p>hi</p>")]⟩, "body",
         "_body_rendered"⟩ =
      MarkupText.raw
        ⟨⟨[("body", PyVal.pyStr "hi"),
           ("_body_rendered", PyVal.pyStr "<p>hi</p>")]⟩, "body",
         "_body_rendered"⟩ :=
  ⟨rfl, markup_text_exposes_raw_and_rendered
    ⟨⟨[("body", PyVal.pyStr "hi"),
       ("_body_rendered", PyVal.pyStr "<p>hi</p>")]⟩, "body",
     "_body_rendered"⟩ (PyVal.pyStr "<p>hi</p>") rfl⟩

/-- Claim C4: `ExtendedImageField.clean` raises a `ValidationError` when a
positive `max_upload_size` is configured, the file exposes a `size`
attribute and that size strictly exceeds `max_upload_size`; when the size
is at most `max_upload_size` the size check never fires. -/
theorem clean_enforces_max_upload_size (f : ExtendedImageField)
    (data : UploadedImage) (sz : Nat) :
    (f.max_upload_size ≠ 0 → data.size = some sz → sz > f.max_upload_size →
      f.clean data = .error (.validationError .sizeError)) ∧
    (data.size = some sz → sz ≤ f.max_upload_size →
      f.clean data ≠ .error (.validationError .sizeError)) := by
  constructor
  · intro h0 hs hgt
    have hck : sizeCheckFails f data = true := by
      simp [sizeCheckFails, hs, h0, hgt]
    simp [ExtendedImageField.clean, hck]
  · intro hs hle
    have hck : sizeCheckFails f data = false := by
      simp [sizeCheckFails, hs]
      omega
    by_cases hw : widthCheckFails f data = true <;>
      by_cases hh : heightCheckFails f data = true <;>
      simp [ExtendedImageField.clean, hck, hw, hh]

/-- Witness for C4: a 10-byte limit rejects an 11-byte upload with the size
error and accepts a 10-byte upload past the size check. -/
theorem clean_enforces_max_upload_size_witness :
    ExtendedImageField.clean ⟨none, none, none, none, none, none, 10⟩
        ⟨some 11, 5, 5⟩ = .error (.validationError .sizeError) ∧
    ExtendedImageField.clean ⟨none, none, none, none, none, none, 10⟩
        ⟨some 10, 5, 5⟩ ≠ .error (.validationError .sizeError) :=
  ⟨(clean_enforces_max_upload_size ⟨none, none, none, none, none, none, 10⟩
      ⟨some 11, 5, 5⟩ 11).1 (by decide) rfl (by decide),
   (clean_enforces_max_upload_size ⟨none, none, none, none, none, none, 10⟩
      ⟨some 10, 5, 5⟩ 10).2 rfl (by decide)⟩

/-- Counterexample to C5 as stated: with dimension bounds 1..100 on both
axes and `max_upload_size = 1`, a 50x50 image whose file is 2 bytes lies
within the configured dimension bounds (both dimension checks pass), yet
`clean` does not return it unchanged — the size check raises first. -/
theorem clean_within_bounds_counterexample :
    widthCheckFails ⟨none, none, some 1, some 100, some 1, some 100, 1⟩
        ⟨some 2, 50, 50⟩ = false ∧
    heightCheckFails ⟨none, none, some 1, some 100, some 1, some 100, 1⟩
        ⟨some 2, 50, 50⟩ = false ∧
    ExtendedImageField.clean ⟨none, none, some 1, some 100, some 1, some 100, 1⟩
        ⟨some 2, 50, 50⟩ ≠ .ok ⟨some 2, 50, 50⟩ := by
  refine ⟨rfl, rfl, ?_⟩
  intro h
  simp [ExtendedImageField.clean, sizeCheckFails] at h

/-- Claim C5 (amended): `clean` raises a `ValidationError` when the width
check fires (width bounds fully configured and the width outside them) or
when the height check fires; an image whose dimensions pass the configured
bounds *and whose file passes the upload-size check* is returned unchanged. -/
theorem clean_dimension_checks_amended (f : ExtendedImageField)
    (data : UploadedImage) :
    (widthCheckFails f data = true →
      ∃ k, f.clean data = .error (.validationError k)) ∧
    (heightCheckFails f data = true →
      ∃ k, f.clean data = .error (.validationError k)) ∧
    (sizeCheckFails f data = false → widthCheckFails f data = false →
      heightCheckFails f data = false → f.clean data = .ok data) := by
  refine ⟨?_, ?_, ?_⟩
  · intro hw
    by_cases hs : sizeCheckFails f data = true
    · exact ⟨.sizeError, by simp [ExtendedImageField.clean, hs]⟩
    · exact ⟨.widthError, by
        simp [ExtendedImageField.clean, eq_false_of_ne_true hs, hw]⟩
  · intro hh
    by_cases hs : sizeCheckFails f data = true
    · exact ⟨.sizeError, by simp [ExtendedImageField.clean, hs]⟩
    · by_cases hw : widthCheckFails f data = true
      · exact ⟨.widthError, by
          simp [ExtendedImageField.clean, eq_false_of_ne_true hs, hw]⟩
      · exact ⟨.heightError, by
          simp [ExtendedImageField.clean, eq_false_of_ne_true hs,
            eq_false_of_ne_true hw, hh]⟩
  · intro hs hw hh
    simp [ExtendedImageField.clean, hs, hw, hh]

/-- Witness for the amended C5: with bounds 10..20 on both axes, a width of
5 and a height of 25 are each rejected, and a 15x15 image with no size
problem passes through unchanged. -/
theorem clean_dimension_checks_amended_witness :
    (∃ k, ExtendedImageField.clean
        ⟨none, none, some 10, some 20, some 10, some 20, 0⟩ ⟨none, 5, 15⟩ =
      .error (.validationError k)) ∧
    (∃ k, ExtendedImageField.clean
        ⟨none, none, some 10, some 20, some 10, some 20, 0⟩ ⟨none, 15, 25⟩ =
      .error (.validationError k)) ∧
    ExtendedImageField.clean
        ⟨none, none, some 10, some 20, some 10, some 20, 0⟩ ⟨none, 15, 15⟩ =
      .ok ⟨none, 15, 15⟩ :=
  ⟨(clean_dimension_checks_amended
      ⟨none, none, some 10, some 20, some 10, some 20, 0⟩ ⟨none, 5, 15⟩).1 rfl,
   (clean_dimension_checks_amended
      ⟨none, none, some 10, some 20, some 10, some 20, 0⟩ ⟨none, 15, 25⟩).2.1 rfl,
   (clean_dimension_checks_amended
      ⟨none, none, some 10, some 20, some 10, some 20, 0⟩
      ⟨none, 15, 15⟩).2.2 rfl rfl rfl⟩

/-- Claim C6: a missing `MACHINA_MARKUP_LANGUAGE` setting (an
`AttributeError`) and an unimportable render-function module (an
`ImportError`) both abort the import of the module with
`ImproperlyConfigured`, i.e. at startup. -/
theorem module_load_improperly_configured (env : ImportEnv)
    (dotted_path modName funcName : String)
    (kwargs : List (String × String)) :
    load_render_func none env = .improperlyConfigured ∧
    (rsplit_dot dotted_path = some (modName, funcName) →
      env.importable modName = false →
      load_render_func (some (dotted_path, kwargs)) env =
        .improperlyConfigured) := by
  refine ⟨rfl, ?_⟩
  intro hsplit himp
  simp [load_render_func, _get_render_function, hsplit, himp]

/-- Witness for C6: no setting at all, and a setting naming a function in a
module that cannot be imported, both yield `ImproperlyConfigured`. -/
theorem module_load_improperly_configured_witness :
    load_render_func none ⟨fun _ => false, fun _ _ => false⟩ =
      .improperlyConfigured ∧
    load_render_func (some ("markdown.markdown", []))
        ⟨fun _ => false, fun _ _ => false⟩ = .improperlyConfigured :=
  ⟨(module_load_improperly_configured ⟨fun _ => false, fun _ _ => false⟩
      "markdown.markdown" "markdown" "markdown" []).1,
   (module_load_improperly_configured ⟨fun _ => false, fun _ _ => false⟩
      "markdown.markdown" "markdown" "markdown" []).2 rfl rfl⟩

/-- Claim C7: with both a truthy target width and height configured and
non-empty form data, `save_form_data` replaces the file by one whose
content is the image thumbnailed to fit inside the `(width, height)` box
and encoded as PNG, under the original base name with a `.png` extension;
with either dimension unconfigured, or empty data, the data passes through
unmodified. -/
theorem save_form_data_resizes_to_png (f : ExtendedImageField)
    (d : ImageFile) (w h : Nat) :
    (f.width = some w → w ≠ 0 → f.height = some h → h ≠ 0 →
      f.save_form_data (some d) =
        some ⟨splitext_root (path_split_last d.name) ++ ".png",
              ⟨.png, d.content.image.thumbnail (w, h)⟩⟩ ∧
      (d.content.image.thumbnail (w, h)).width ≤ w ∧
      (d.content.image.thumbnail (w, h)).height ≤ h) ∧
    ((truthyOpt f.width = false ∨ truthyOpt f.height = false) →
      f.save_form_data (some d) = some d) ∧
    f.save_form_data none = none := by
  refine ⟨?_, ?_, rfl⟩
  · intro hfw hw hfh hh
    have hfits := PILImage.thumbnail_fits d.content.image w h
      (Nat.one_le_iff_ne_zero.mpr hw) (Nat.one_le_iff_ne_zero.mpr hh)
    refine ⟨?_, hfits.1, hfits.2⟩
    simp [ExtendedImageField.save_form_data, ExtendedImageField.resize_image,
      truthyOpt, optVal, hfw, hfh, hw, hh]
  · intro hcase
    rcases hcase with hfw | hfh
    · simp [ExtendedImageField.save_form_data, hfw]
    · simp [ExtendedImageField.save_form_data, hfh]

/-- Witness for C7: a 200x400 JPEG named `dir/pic.jpeg` resized into a
100x100 box becomes a 50x100 PNG named `pic.png`; a field with no target
width passes the same file through; empty data stays empty. -/
theorem save_form_data_resizes_to_png_witness :
    (ExtendedImageField.save_form_data
        ⟨some 100, some 100, none, none, none, none, 0⟩
        (some ⟨"dir/pic.jpeg", ⟨.jpeg, ⟨200, 400⟩⟩⟩) =
      some ⟨splitext_root (path_split_last "dir/pic.jpeg") ++ ".png",
            ⟨.png, PILImage.thumbnail ⟨200, 400⟩ (100, 100)⟩⟩ ∧
      (PILImage.thumbnail ⟨200, 400⟩ (100, 100)).width ≤ 100 ∧
      (PILImage.thumbnail ⟨200, 400⟩ (100, 100)).height ≤ 100) ∧
    ExtendedImageField.save_form_data
        ⟨none, some 100, none, none, none, none, 0⟩
        (some ⟨"dir/pic.jpeg", ⟨.jpeg, ⟨200, 400⟩⟩⟩) =
      some ⟨"dir/pic.jpeg", ⟨.jpeg, ⟨200, 400⟩⟩⟩ ∧
    ExtendedImageField.save_form_data
        ⟨some 100, some 100, none, none, none, none, 0⟩ none = none :=
  ⟨(save_form_data_resizes_to_png
      ⟨some 100, some 100, none, none, none, none, 0⟩
      ⟨"dir/pic.jpeg", ⟨.jpeg, ⟨200, 400⟩⟩⟩ 100 100).1 rfl (by decide) rfl
      (by decide),
   (save_form_data_resizes_to_png
      ⟨none, some 100, none, none, none, none, 0⟩
      ⟨"dir/pic.jpeg", ⟨.jpeg, ⟨200, 400⟩⟩⟩ 100 100).2.1 (Or.inl rfl),
   (save_form_data_resizes_to_png
      ⟨some 100, some 100, none, none, none, none, 0⟩
      ⟨"dir/pic.jpeg", ⟨.jpeg, ⟨200, 400⟩⟩⟩ 100 100).2.2⟩

/-- Claim C8: each dimension bound of `ExtendedImageField` is enforced only
when both of its ends are truthy (neither `None` nor zero): otherwise the
corresponding check is skipped and `clean`'s verdict is the same for every
value of that dimension. -/
theorem dimension_checks_require_both_ends (f : ExtendedImageField)
    (sz : Option Nat) (w w' hgt hgt' : Nat) :
    ((truthyOpt f.min_width = false ∨ truthyOpt f.max_width = false) →
      widthCheckFails f ⟨sz, w, hgt⟩ = false ∧
      (f.clean ⟨sz, w, hgt⟩ = .ok ⟨sz, w, hgt⟩ ↔
        f.clean ⟨sz, w', hgt⟩ = .ok ⟨sz, w', hgt⟩)) ∧
    ((truthyOpt f.min_height = false ∨ truthyOpt f.max_height = false) →
      heightCheckFails f ⟨sz, w, hgt⟩ = false ∧
      (f.clean ⟨sz, w, hgt⟩ = .ok ⟨sz, w, hgt⟩ ↔
        f.clean ⟨sz, w, hgt'⟩ = .ok ⟨sz, w, hgt'⟩)) := by
  constructor
  · intro hcase
    have hwf : ∀ a : Nat, widthCheckFails f ⟨sz, a, hgt⟩ = false := by
      intro a
      rcases hcase with h | h <;> simp [widthCheckFails, h]
    refine ⟨hwf w, ?_⟩
    have key : ∀ a : Nat,
        (ExtendedImageField.clean f ⟨sz, a, hgt⟩ = .ok ⟨sz, a, hgt⟩ ↔
          (sizeCheckFails f ⟨sz, w, hgt⟩ = false ∧
           heightCheckFails f ⟨sz, w, hgt⟩ = false)) := by
      intro a
      have hs : sizeCheckFails f ⟨sz, a, hgt⟩ = sizeCheckFails f ⟨sz, w, hgt⟩ :=
        rfl
      have hht : heightCheckFails f ⟨sz, a, hgt⟩ =
          heightCheckFails f ⟨sz, w, hgt⟩ := rfl
      by_cases h1 : sizeCheckFails f ⟨sz, w, hgt⟩ = true
      · simp [ExtendedImageField.clean, hs, h1]
      · by_cases h2 : heightCheckFails f ⟨sz, w, hgt⟩ = true
        · simp [ExtendedImageField.clean, hs, hht, eq_false_of_ne_true h1,
            hwf a, h2]
        · simp [ExtendedImageField.clean, hs, hht, eq_false_of_ne_true h1,
            hwf a, eq_false_of_ne_true h2]
    exact (key w).trans (key w').symm
  · intro hcase
    have hhf : ∀ b : Nat, heightCheckFails f ⟨sz, w, b⟩ = false := by
      intro b
      rcases hcase with h | h <;> simp [heightCheckFails, h]
    refine ⟨hhf hgt, ?_⟩
    have key : ∀ b : Nat,
        (ExtendedImageField.clean f ⟨sz, w, b⟩ = .ok ⟨sz, w, b⟩ ↔
          (sizeCheckFails f ⟨sz, w, hgt⟩ = false ∧
           widthCheckFails f ⟨sz, w, hgt⟩ = false)) := by
      intro b
      have hs : sizeCheckFails f ⟨sz, w, b⟩ = sizeCheckFails f ⟨sz, w, hgt⟩ :=
        rfl
      have hwd : widthCheckFails f ⟨sz, w, b⟩ =
          widthCheckFails f ⟨sz, w, hgt⟩ := rfl
      by_cases h1 : sizeCheckFails f ⟨sz, w, hgt⟩ = true
      · simp [ExtendedImageField.clean, hs, h1]
      · by_cases h2 : widthCheckFails f ⟨sz, w, hgt⟩ = true
        · simp [ExtendedImageField.clean, hs, hwd, eq_false_of_ne_true h1, h2]
        · simp [ExtendedImageField.clean, hs, hwd, eq_false_of_ne_true h1,
            eq_false_of_ne_true h2, hhf b]
    exact (key hgt).trans (key hgt').symm

/-- Witness for C8: a field with only `min_width` and only `max_height` set
skips both dimension checks, and `clean` accepts a 1000-pixel-wide image
exactly when it accepts a 3-pixel-wide one (and likewise for heights). -/
theorem dimension_checks_require_both_ends_witness :
    (widthCheckFails ⟨none, none, some 5, none, none, some 5, 0⟩
        ⟨none, 1000, 3⟩ = false ∧
      (ExtendedImageField.clean ⟨none, none, some 5, none, none, some 5, 0⟩
          ⟨none, 1000, 3⟩ = .ok ⟨none, 1000, 3⟩ ↔
        ExtendedImageField.clean ⟨none, none, some 5, none, none, some 5, 0⟩
          ⟨none, 3, 3⟩ = .ok ⟨none, 3, 3⟩)) ∧
    (heightCheckFails ⟨none, none, some 5, none, none, some 5, 0⟩
        ⟨none, 1000, 3⟩ = false ∧
      (ExtendedImageField.clean ⟨none, none, some 5, none, none, some 5, 0⟩
          ⟨none, 1000, 3⟩ = .ok ⟨none, 1000, 3⟩ ↔
        ExtendedImageField.clean ⟨none, none, some 5, none, none, some 5, 0⟩
          ⟨none, 1000, 2000⟩ = .ok ⟨none, 1000, 2000⟩)) :=
  ⟨(dimension_checks_require_both_ends ⟨none, none, some 5, none, none, some 5, 0⟩
      none 1000 3 3 2000).1 (Or.inr rfl),
   (dimension_checks_require_both_ends ⟨none, none, some 5, none, none, some 5, 0⟩
      none 1000 3 3 2000).2 (Or.inl rfl)⟩

/-- Claim C9: assigning a plain value to the markup attribute updates only
the raw slot — the rendered column (and every other key) is untouched, so
it stays stale until the next save — while assigning a `MarkupText` wrapper
updates both the raw slot (with the wrapper's raw value) and the rendered
column (with the wrapper's rendered value). -/
theorem descriptor_set_updates (name : String) (inst : MInstance) (v : PyVal)
    (m : MarkupText) (rawv rndv : PyVal)
    (hraw : m.raw = .ok rawv) (hrnd : m.rendered = .ok rndv) :
    (MarkupTextDescriptor.descr_set name inst (.plain v) =
       .ok ⟨insertA inst.dict name v⟩ ∧
     lookupA (insertA inst.dict name v) (rendered_field_name_of name) =
       lookupA inst.dict (rendered_field_name_of name) ∧
     (∀ k, k ≠ name →
       lookupA (insertA inst.dict name v) k = lookupA inst.dict k)) ∧
    (MarkupTextDescriptor.descr_set name inst (.wrapper m) =
       .ok ⟨insertA (insertA inst.dict name rawv)
              (rendered_field_name_of name) rndv⟩ ∧
     lookupA (insertA (insertA inst.dict name rawv)
        (rendered_field_name_of name) rndv) name = some rawv ∧
     lookupA (insertA (insertA inst.dict name rawv)
        (rendered_field_name_of name) rndv) (rendered_field_name_of name) =
       some rndv) := by
  refine ⟨⟨rfl, ?_, ?_⟩, ?_, ?_, ?_⟩
  · have hne : ¬ name = rendered_field_name_of name :=
      fun h => rendered_field_name_of_ne name h.symm
    rw [lookupA_insertA, if_neg hne]
  · intro k hk
    rw [lookupA_insertA, if_neg (Ne.symm hk)]
  · simp [MarkupTextDescriptor.descr_set, hraw, hrnd]
  · rw [lookupA_insertA, if_neg (rendered_field_name_of_ne name),
      lookupA_insertA, if_pos rfl]
  · rw [lookupA_insertA, if_pos rfl]

/-- Witness for C9 at concrete instances: a plain assignment leaves the
rendered column untouched, a wrapper assignment updates both slots. -/
theorem descriptor_set_updates_witness :
    MarkupText.raw ⟨⟨[("body", PyVal.pyStr "x"),
        ("_body_rendered", PyVal.pyStr "xr")]⟩, "body", "_body_rendered"⟩ =
      .ok (PyVal.pyStr "x") ∧
    MarkupTextDescriptor.descr_set "body"
        ⟨[("body", PyVal.pyStr "old"), ("_body_rendered", PyVal.pyStr "oldr")]⟩
        (.plain (PyVal.pyStr "new")) =
      .ok ⟨insertA [("body", PyVal.pyStr "old"),
            ("_body_rendered", PyVal.pyStr "oldr")] "body"
            (PyVal.pyStr "new")⟩ ∧
    lookupA (insertA [("body", PyVal.pyStr "old"),
        ("_body_rendered", PyVal.pyStr "oldr")] "body" (PyVal.pyStr "new"))
        (rendered_field_name_of "body") =
      lookupA [("body", PyVal.pyStr "old"),
        ("_body_rendered", PyVal.pyStr "oldr")] (rendered_field_name_of "body") ∧
    lookupA (insertA (insertA [("body", PyVal.pyStr "old"),
        ("_body_rendered", PyVal.pyStr "oldr")] "body" (PyVal.pyStr "x"))
        (rendered_field_name_of "body") (PyVal.pySafeStr "xr")) "body" =
      some (PyVal.pyStr "x") ∧
    lookupA (insertA (insertA [("body", PyVal.pyStr "old"),
        ("_body_rendered", PyVal.pyStr "oldr")] "body" (PyVal.pyStr "x"))
        (rendered_field_name_of "body") (PyVal.pySafeStr "xr"))
        (rendered_field_name_of "body") = some (PyVal.pySafeStr "xr") := by
  refine ⟨rfl, ?_, ?_, ?_, ?_⟩
  · exact (descriptor_set_updates "body"
      ⟨[("body", PyVal.pyStr "old"), ("_body_rendered", PyVal.pyStr "oldr")]⟩
      (PyVal.pyStr "new")
      ⟨⟨[("body", PyVal.pyStr "x"), ("_body_rendered", PyVal.pyStr "xr")]⟩,
        "body", "_body_rendered"⟩
      (PyVal.pyStr "x") (PyVal.pySafeStr "xr") rfl rfl).1.1
  · exact (descriptor_set_updates "body"
      ⟨[("body", PyVal.pyStr "old"), ("_body_rendered", PyVal.pyStr "oldr")]⟩
      (PyVal.pyStr "new")
      ⟨⟨[("body", PyVal.pyStr "x"), ("_body_rendered", PyVal.pyStr "xr")]⟩,
        "body", "_body_rendered"⟩
      (PyVal.pyStr "x") (PyVal.pySafeStr "xr") rfl rfl).1.2.1
  · exact (descriptor_set_updates "body"
      ⟨[("body", PyVal.pyStr "old"), ("_body_rendered", PyVal.pyStr "oldr")]⟩
      (PyVal.pyStr "new")
      ⟨⟨[("body", PyVal.pyStr "x"), ("_body_rendered", PyVal.pyStr "xr")]⟩,
        "body", "_body_rendered"⟩
      (PyVal.pyStr "x") (PyVal.pySafeStr "xr") rfl rfl).2.2.1
  · exact (descriptor_set_updates "body"
      ⟨[("body", PyVal.pyStr "old"), ("_body_rendered", PyVal.pyStr "oldr")]⟩
      (PyVal.pyStr "new")
      ⟨⟨[("body", PyVal.pyStr "x"), ("_body_rendered", PyVal.pyStr "xr")]⟩,
        "body", "_body_rendered"⟩
      (PyVal.pyStr "x") (PyVal.pySafeStr "xr") rfl rfl).2.2.2

/-- Claim C10: reading the markup attribute returns `None` for a `None` raw
value and a live `MarkupText` wrapper otherwise; class access (no instance)
raises `AttributeError`; and `get_db_prep_value` returns the raw component
of a value exposing `raw` and passes any other value through unchanged. -/
theorem descriptor_get_and_db_prep (name : String) (inst : MInstance)
    (v rawv : PyVal) (m : MarkupText) :
    MarkupTextDescriptor.descr_get name none = .error .attributeError ∧
    (lookupA inst.dict name = some PyVal.pyNone →
      MarkupTextDescriptor.descr_get name (some inst) = .ok none) ∧
    (lookupA inst.dict name = some v → v ≠ PyVal.pyNone →
      MarkupTextDescriptor.descr_get name (some inst) =
        .ok (some ⟨inst, name, rendered_field_name_of name⟩)) ∧
    (m.raw = .ok rawv →
      MarkupTextField.get_db_prep_value (.wrapper m) = .ok (.plain rawv)) ∧
    MarkupTextField.get_db_prep_value (.plain v) = .ok (.plain v) := by
  refine ⟨rfl, ?_, ?_, ?_, rfl⟩
  · intro h
    simp [MarkupTextDescriptor.descr_get, h]
  · intro h hne
    cases v with
    | pyNone => exact absurd rfl hne
    | pyStr s => simp [MarkupTextDescriptor.descr_get, h]
    | pySafeStr s => simp [MarkupTextDescriptor.descr_get, h]
  · intro h
    simp [MarkupTextField.get_db_prep_value, h]

/-- Witness for C10 at concrete instances: class access errors, a `None`
raw value reads as `None`, a string raw value reads as the live wrapper,
and `get_db_prep_value` handles both value shapes. -/
theorem descriptor_get_and_db_prep_witness :
    MarkupTextDescriptor.descr_get "body" none = .error .attributeError ∧
    MarkupTextDescriptor.descr_get "body" (some ⟨[("body", PyVal.pyNone)]⟩) =
      .ok none ∧
    MarkupTextDescriptor.descr_get "body"
        (some ⟨[("body", PyVal.pyStr "hi")]⟩) =
      .ok (some ⟨⟨[("body", PyVal.pyStr "hi")]⟩, "body",
            rendered_field_name_of "body"⟩) ∧
    MarkupTextField.get_db_prep_value
        (.wrapper ⟨⟨[("body", PyVal.pyStr "hi")]⟩, "body", "_body_rendered"⟩) =
      .ok (.plain (PyVal.pyStr "hi")) ∧
    MarkupTextField.get_db_prep_value (.plain (PyVal.pyStr "z")) =
      .ok (.plain (PyVal.pyStr "z")) := by
  refine ⟨?_, ?_, ?_, ?_, ?_⟩
  · exact (descriptor_get_and_db_prep "body" ⟨[("body", PyVal.pyNone)]⟩
      (PyVal.pyStr "z") (PyVal.pyStr "hi")
      ⟨⟨[("body", PyVal.pyStr "hi")]⟩, "body", "_body_rendered"⟩).1
  · exact (descriptor_get_and_db_prep "body" ⟨[("body", PyVal.pyNone)]⟩
      (PyVal.pyStr "z") (PyVal.pyStr "hi")
      ⟨⟨[("body", PyVal.pyStr "hi")]⟩, "body", "_body_rendered"⟩).2.1 rfl
  · exact (descriptor_get_and_db_prep "body" ⟨[("body", PyVal.pyStr "hi")]⟩
      (PyVal.pyStr "hi") (PyVal.pyStr "hi")
      ⟨⟨[("body", PyVal.pyStr "hi")]⟩, "body", "_body_rendered"⟩).2.2.1 rfl
      (by simp)
  · exact (descriptor_get_and_db_prep "body" ⟨[("body", PyVal.pyStr "hi")]⟩
      (PyVal.pyStr "z") (PyVal.pyStr "hi")
      ⟨⟨[("body", PyVal.pyStr "hi")]⟩, "body", "_body_rendered"⟩).2.2.2.1 rfl
  · exact (descriptor_get_and_db_prep "body" ⟨[("body", PyVal.pyStr "hi")]⟩
      (PyVal.pyStr "z") (PyVal.pyStr "hi")
      ⟨⟨[("body", PyVal.pyStr "hi")]⟩, "body", "_body_rendered"⟩).2.2.2.2

end Machina
